import Mathlib

/-! # check_service: the service status engine

A shallow embedding of `lib/app/nagiosfoundation/check_service/servicestatus.go`.

Go strings are modelled by `String` (sequences of Unicode code points, so byte
sequences that are not valid UTF-8 are outside the model), Go `int` by `Int`,
a Go `error` by `Option error` with `none` for `nil`, and `fmt.Sprintf` with
`%s` verbs by concatenation.
-/

namespace nagiosfoundation

/-! ## Runtime library pieces the source calls -/

/-- Unicode case data of the Go runtime for runes outside ASCII. The tables are
not part of this repository, so every definition below takes them as a parameter.

* `fold lo hi` stands for the general case of `strings.EqualFold`, reached with
  `lo < hi` and `hi ≥ utf8.RuneSelf`: walking `unicode.SimpleFold` from `lo`
  arrives at `hi`;
* `upper r` and `lower r` stand for `unicode.ToUpper r` and `unicode.ToLower r`
  on a rune `r > unicode.MaxASCII`. -/
structure CaseTables where
  fold : Char → Char → Bool
  upper : Char → Char
  lower : Char → Char

/-- The constant `utf8.RuneSelf`: runes below it are single ASCII bytes. -/
def RuneSelf : Nat := 0x80

/-- One iteration of the rune loop of `strings.EqualFold` on the runes `sr`
(from `s`) and `tr` (from `t`): `true` when the loop continues, `false` when
`EqualFold` returns false. -/
def equalFoldRune (T : CaseTables) (sr tr : Char) : Bool :=
  -- Easy case.
  if tr = sr then true
  else
    -- Make sr < tr to simplify what follows.
    let lo := if tr < sr then tr else sr
    let hi := if tr < sr then sr else tr
    if hi.toNat < RuneSelf then
      -- ASCII only, sr/tr must be upper/lower case
      decide ('A' ≤ lo) && decide (lo ≤ 'Z') && (hi.toNat == lo.toNat + 'a'.toNat - 'A'.toNat)
    else
      T.fold lo hi

/-- The rune loop of `strings.EqualFold` on the decoded runes of both strings. -/
def equalFoldRunes (T : CaseTables) : List Char → List Char → Bool
  | [], [] => true
  | [], _ :: _ => false
  | _ :: _, [] => false
  | sr :: s, tr :: t => equalFoldRune T sr tr && equalFoldRunes T s t

/-- Go `strings.EqualFold`: equality under simple Unicode case folding. -/
def EqualFold (T : CaseTables) (s t : String) : Bool :=
  equalFoldRunes T s.data t.data

/-- Go `unicode.ToUpper` on one rune. -/
def runeToUpper (T : CaseTables) (r : Char) : Char :=
  if r.toNat < RuneSelf then
    if 'a' ≤ r ∧ r ≤ 'z' then Char.ofNat (r.toNat - ('a'.toNat - 'A'.toNat)) else r
  else T.upper r

/-- Go `unicode.ToLower` on one rune. -/
def runeToLower (T : CaseTables) (r : Char) : Char :=
  if r.toNat < RuneSelf then
    if 'A' ≤ r ∧ r ≤ 'Z' then Char.ofNat (r.toNat + ('a'.toNat - 'A'.toNat)) else r
  else T.lower r

/-- Go `strings.ToUpper`. -/
def ToUpper (T : CaseTables) (s : String) : String :=
  String.mk (s.data.map (runeToUpper T))

/-- Go `strings.ToLower`. -/
def ToLower (T : CaseTables) (s : String) : String :=
  String.mk (s.data.map (runeToLower T))

/-- A string all of whose runes are ASCII. -/
def isASCII (s : String) : Prop := ∀ c ∈ s.data, c.toNat < RuneSelf

instance (s : String) : Decidable (isASCII s) := by
  unfold isASCII; exact inferInstance

/-- Case data with no entry outside ASCII: nothing folds and nothing changes case.
On ASCII strings no table is consulted, so there every instance gives Go's result. -/
def asciiOnly : CaseTables where
  fold := fun _ _ => false
  upper := fun r => r
  lower := fun r => r

/-- Go's Unicode case data restricted to the runes `I`, `i`, U+0130 (capital I with dot
above) and U+0131 (dotless small i); other runes outside ASCII are left alone. In Go's
`unicode` tables `caseOrbit` maps U+0130 and U+0131 each to itself, so neither folds to
any other rune, while `ToLower(U+0130) = 'i'` and `ToUpper(U+0131) = 'I'`. -/
def turkic : CaseTables where
  fold := fun _ _ => false
  upper := fun r => if r = Char.ofNat 0x131 then 'I' else r
  lower := fun r => if r = Char.ofNat 0x130 then 'i' else r

/-! ## The data model -/

/-- A Go `error` value, carrying its message. -/
structure error where
  msg : String
deriving DecidableEq

/-- Go `errors.New`. -/
def errors.New (text : String) : error := ⟨text⟩

/-- The struct `serviceInfo`. A `nil` handler is `none`; a handler maps the
service name to `(name, user, state, err)`. -/
structure serviceInfo where
  desiredName : String
  desiredState : String
  desiredUser : String
  actualName : String
  actualState : String
  actualUser : String
  getServiceInfo : Option (String → String × String × String × Option error)

namespace serviceInfo

/-- Returns the actual name of the service resulting from the service query. -/
def ActualName (i : serviceInfo) : String := i.actualName

/-- Returns the actual state of the service resulting from the service query. -/
def ActualState (i : serviceInfo) : String := i.actualState

/-- Returns the actual user of the service resulting from the service query. -/
def ActualUser (i : serviceInfo) : String := i.actualUser

/-- Checks for a match against the actual name of the service, case insensitively. -/
def IsName (T : CaseTables) (i : serviceInfo) (name : String) : Bool :=
  EqualFold T i.ActualName name

/-- Checks for a match against the actual state of the service, case insensitively. -/
def IsState (T : CaseTables) (i : serviceInfo) (state : String) : Bool :=
  EqualFold T i.ActualState state

/-- Checks for a match against the actual user of the service, case insensitively. -/
def IsUser (T : CaseTables) (i : serviceInfo) (user : String) : Bool :=
  EqualFold T i.ActualUser user

/-- The outcome of `GetInfo`: the record after the call, the returned error, and
the arguments of every handler invocation made, in order. -/
structure GetInfoResult where
  info : serviceInfo
  err : Option error
  calls : List String

/-- Runs the handler that retrieves information about the service, when there is one. -/
def GetInfo (i : serviceInfo) : GetInfoResult :=
  match i.getServiceInfo with
  | none => ⟨i, some (errors.New "No get service info handler declared"), []⟩
  | some f =>
    match f i.desiredName with
    | (name, user, state, err) =>
      ⟨{ i with actualName := name, actualUser := user, actualState := state }, err,
        [i.desiredName]⟩

/-- Lines 82-119 of `ProcessInfo`: the cascade assigning `checkInfo` and `retcode`. -/
def checkInfo (T : CaseTables) (i : serviceInfo) : String × Int :=
  if !i.IsName T i.desiredName then
    (i.desiredName ++ " does not exist", 2)
  else if i.desiredState ≠ "" ∧ i.desiredUser ≠ "" then
    if i.IsState T i.desiredState && i.IsUser T i.desiredUser then
      (i.ActualName ++ " in a " ++ i.ActualState ++ " state and started by user " ++ i.ActualUser, 0)
    else
      (i.ActualName ++ " either not in a " ++ i.desiredState ++ " state or not started by user "
        ++ i.desiredUser, 2)
  else if i.desiredState ≠ "" then
    if i.IsState T i.desiredState then
      (i.ActualName ++ " in a " ++ i.ActualState ++ " state", 0)
    else
      (i.ActualName ++ " not in a " ++ i.desiredState ++ " state", 2)
  else if i.desiredUser ≠ "" then
    if i.IsUser T i.desiredUser then
      (i.ActualName ++ " started by user " ++ i.ActualUser, 0)
    else
      (i.ActualName ++ " not started by user " ++ i.desiredUser, 2)
  else
    (i.ActualName ++ " in a " ++ i.ActualState ++ " state and started by user " ++ i.ActualUser, 0)

/-- Lines 124-130 of `ProcessInfo`: `actualInfo`, the diagnostic suffix. -/
def actualInfo (i : serviceInfo) : String :=
  " (Name: " ++ i.ActualName ++ ", State: " ++ i.ActualState ++ ", User: " ++ i.ActualUser ++ ")"

/-- Process the desired service info against the actual service info and return check
text and a return code. -/
def ProcessInfo (T : CaseTables) (i : serviceInfo) : String × Int :=
  let (checkInfo, retcode) := i.checkInfo T
  let (responseStateText, actualInfo) :=
    if retcode = 0 then ("OK", "") else ("CRITICAL", i.actualInfo)
  let msg := "CheckService " ++ responseStateText ++ " - " ++ checkInfo ++ actualInfo
  (msg, retcode)

end serviceInfo

/-- The record of the end-to-end scenarios: actual `sshd` / `running` / `root`. -/
def sshd (desiredState desiredUser : String) : serviceInfo :=
  { desiredName := "sshd", desiredState := desiredState, desiredUser := desiredUser,
    actualName := "sshd", actualState := "running", actualUser := "root",
    getServiceInfo := none }

/-- A handler that reports every service as running under root, and fails on `ghost`
while still reporting values. -/
def sampleHandler (name : String) : String × String × String × Option error :=
  if name = "ghost" then ("?", "nobody", "dead", some (errors.New "no such unit"))
  else (name, "root", "running", none)

/-- The code point of the lower-case form of an ASCII code point. -/
def lowerNat (x : Nat) : Nat := if 65 ≤ x ∧ x ≤ 90 then x + 32 else x

/-- The code point of the upper-case form of an ASCII code point. -/
def upperNat (x : Nat) : Nat := if 97 ≤ x ∧ x ≤ 122 then x - 32 else x

/-- Every rune of `s` keeps its fold class `key` when it is upper-cased and when it is
lower-cased. -/
def caseStable (T : CaseTables) (key : Char → Char) (s : String) : Prop :=
  ∀ c ∈ s.data, key (runeToUpper T c) = key c ∧ key (runeToLower T c) = key c

instance (T : CaseTables) (key : Char → Char) (s : String) : Decidable (caseStable T key s) := by
  unfold caseStable; exact inferInstance

/-- A representative of the simple-fold class of a rune, for the ASCII runes, U+00D6 and
U+00F6 (O with diaeresis), U+212A (Kelvin sign, in the class of `K` and `k`), and U+0130
and U+0131, which are alone in their class; other runes are left alone. -/
def sampleKey (c : Char) : Char :=
  if c.toNat < RuneSelf then runeToLower asciiOnly c
  else if c = Char.ofNat 0xD6 then Char.ofNat 0xF6
  else if c = Char.ofNat 0x212A then 'k'
  else c

/-- Go's Unicode case data restricted to the ASCII runes, U+00D6, U+00F6, U+212A, U+0130
and U+0131: two runes fold together when they have the same `sampleKey`, U+00F6
upper-cases to U+00D6 and U+00D6 lower-cases to U+00F6, the Kelvin sign lower-cases to
`k`, and U+0131 upper-cases to `I` and U+0130 lower-cases to `i` as in `turkic`. -/
def latin : CaseTables where
  fold := fun lo hi => decide (sampleKey lo = sampleKey hi)
  upper := fun r =>
    if r = Char.ofNat 0xF6 then Char.ofNat 0xD6 else if r = Char.ofNat 0x131 then 'I' else r
  lower := fun r =>
    if r = Char.ofNat 0xD6 then Char.ofNat 0xF6
    else if r = Char.ofNat 0x212A then 'k'
    else if r = Char.ofNat 0x130 then 'i'
    else r

/-! # perfcounters: the counter sampling bridge

A shallow embedding of `lib/pkg/perfcounters/perfcounters.go`. Go `float64` is a type
parameter `F` with its zero, `strconv.ParseFloat(s, 64)` is a parameter returning the
value and the error, `%d` of an `int` is its decimal rendering, and the `glog` calls,
which only write to the log, are left out. Every result records the invocations made on
the injected collaborator, in order.
-/

namespace perfcounters

/-- Go `unicode.IsSpace`: the Latin-1 switch and, above Latin-1, the ranges of the
`White_Space` table. -/
def IsSpace (r : Char) : Bool :=
  let n := r.toNat
  if n ≤ 0xFF then
    n == 0x09 || n == 0x0A || n == 0x0B || n == 0x0C || n == 0x0D || n == 0x20
      || n == 0x85 || n == 0xA0
  else
    n == 0x1680 || (decide (0x2000 ≤ n) && decide (n ≤ 0x200A)) || n == 0x2028 || n == 0x2029
      || n == 0x202F || n == 0x205F || n == 0x3000

/-- Go `strings.TrimSpace`: the string without its leading and trailing white space. -/
def TrimSpace (s : String) : String :=
  String.mk ((s.data.dropWhile IsSpace).rdropWhile IsSpace)

/-- The struct `PerformanceCounter`: the name of the performance counter and the value
retrieved from it. -/
structure PerformanceCounter (F : Type) where
  Name : String
  Value : F

/-- The interface `powerShellService`; a `nil` interface value is `none` where one is
expected. `Execute` returns `(stdout, stderr, err)`. -/
structure powerShellService where
  Execute : List String → String × String × Option error

/-- An `exec.Cmd` with both output buffers attached: `Run` gives what the process wrote to
standard output and standard error, and the error of `cmd.Run()`. -/
structure Cmd where
  Run : String × String × Option error

/-- The struct `powerShell`. -/
structure powerShell where
  powerShell : String
  command : String → List String → Cmd

/-- The constructor `newPowerShell`; the error of `lookPath` is discarded. -/
def newPowerShell (lookPath : String → String × Option error)
    (command : String → List String → Cmd) : perfcounters.powerShell :=
  let (ps, _) := lookPath "powershell.exe"
  { powerShell := ps, command := command }

/-- The outcome of `powerShell.Execute`: its three results and the invocations of the
command function, each with the path and the argument list it received. -/
structure ExecuteResult where
  stdOut : String
  stdErr : String
  err : Option error
  invoked : List (String × List String)

/-- The method `powerShell.Execute`. -/
def powerShell.Execute (p : perfcounters.powerShell) (args : List String) : ExecuteResult :=
  let args := ["-NoProfile", "-NonInteractive"] ++ args
  let cmd := p.command p.powerShell args
  match cmd.Run with
  | (stdout, stderr, err) => ⟨stdout, stderr, err, [(p.powerShell, args)]⟩

/-- The outcome of `ReadPerformanceCounterWithHandler`: the reading, the error, and the
argument list of every `Execute` call made, in order. -/
structure ReadResult (F : Type) where
  counter : PerformanceCounter F
  err : Option error
  executed : List (List String)

/-- The command string built on lines 69-72. -/
def command (counter : String) (pollingAttempts pollingDelay : Int) : String :=
  ("Write-Output (Get-Counter -Counter \"" ++ counter ++ "\" -SampleInterval "
      ++ toString pollingDelay ++ " -MaxSamples " ++ toString pollingAttempts ++ " |\n")
    ++ "Select-Object -ExpandProperty CounterSamples |\n"
    ++ "Select-Object -ExpandProperty CookedValue |\n"
    ++ "Measure-Object -Average).Average"

/-- ReadPerformanceCounterWithHandler reads a performance counter. -/
def ReadPerformanceCounterWithHandler {F : Type} [Zero F]
    (ParseFloat : String → F × Option error) (poshService : Option powerShellService)
    (counter : String) (pollingAttempts pollingDelay : Int) : ReadResult F :=
  let perfcounter : PerformanceCounter F := { Name := counter, Value := 0 }
  match poshService with
  | none => ⟨{ Name := "", Value := 0 }, some (errors.New "No Powershell Execute service"), []⟩
  | some poshService =>
    let command := command counter pollingAttempts pollingDelay
    match poshService.Execute [command] with
    | (_, _, some err) => ⟨perfcounter, some err, [[command]]⟩
    | (stdout, _, none) =>
      let trimmedStdout := TrimSpace stdout
      match ParseFloat trimmedStdout with
      | (_, some err) => ⟨perfcounter, some err, [[command]]⟩
      | (avgValue, none) => ⟨{ perfcounter with Value := avgValue }, none, [[command]]⟩

/-- The value of a run of decimal digits read after the value `acc`, when they all are
digits. -/
def digitsValue : List Char → Nat → Option Nat
  | [], acc => some acc
  | c :: cs, acc => if c.isDigit then digitsValue cs (10 * acc + (c.toNat - 48)) else none

/-- A stand-in for `strconv.ParseFloat(s, 64)` with rational values, on unsigned literals
of the shape digits or digits.digits: the value of the literal with a nil error, and
otherwise zero with an invalid-syntax error. It agrees with Go wherever such a literal
denotes a binary64 number exactly, as `42.5` does. -/
def sampleParseFloat (s : String) : ℚ × Option error :=
  let int := s.data.takeWhile (fun c => c != '.')
  let frac := (s.data.dropWhile (fun c => c != '.')).drop 1
  let bad : ℚ × Option error :=
    (0, some (errors.New ("strconv.ParseFloat: parsing \"" ++ s ++ "\": invalid syntax")))
  if int = [] ∨ (s.data.contains '.' ∧ frac = []) then bad
  else
    match digitsValue (int ++ frac) 0 with
    | some m => ((m : ℚ) / (10 : ℚ) ^ frac.length, none)
    | none => bad

/-- An executor that fails with an error telling how many arguments it received and what
they were. -/
def echoService : powerShellService :=
  { Execute := fun args =>
      ("", "", some (errors.New
        (toString args.length ++ " argument: " ++ String.intercalate "\n" args))) }

/-- An executor that ignores its arguments and answers with the given results. -/
def fixedService (stdout stderr : String) (err : Option error) : powerShellService :=
  { Execute := fun _ => (stdout, stderr, err) }

end perfcounters

/-! ## ASCII case folding -/

theorem char_le_iff (a b : Char) : a ≤ b ↔ a.toNat ≤ b.toNat := by
  rw [Char.le_def, UInt32.le_def, BitVec.le_def]; rfl

theorem char_lt_iff (a b : Char) : a < b ↔ a.toNat < b.toNat := by
  rw [Char.lt_def, UInt32.lt_def, BitVec.lt_def]; rfl

theorem char_eq_iff (a b : Char) : a = b ↔ a.toNat = b.toNat := by
  constructor
  · intro h; rw [h]
  · intro h
    have := congrArg Char.ofNat h
    simpa [Char.ofNat_toNat] using this

theorem toNat_ofNat_small (n : Nat) (h : n < 0xd800) : (Char.ofNat n).toNat = n := by
  have hv : n.isValidChar := Or.inl h
  simp only [Char.ofNat, hv, dite_true, Char.ofNatAux, Char.toNat]
  simp [UInt32.toNat]

theorem runeToLower_toNat (T : CaseTables) (c : Char) (h : c.toNat < RuneSelf) :
    (runeToLower T c).toNat = lowerNat c.toNat := by
  have hA : ('A' : Char).toNat = 65 := rfl
  have hZ : ('Z' : Char).toNat = 90 := rfl
  have ha : ('a' : Char).toNat = 97 := rfl
  unfold RuneSelf at h
  simp only [runeToLower, RuneSelf, h, if_true, char_le_iff, hA, hZ, ha, lowerNat]
  split_ifs with h1
  · rw [toNat_ofNat_small _ (by omega)]
  · rfl

theorem runeToUpper_toNat (T : CaseTables) (c : Char) (h : c.toNat < RuneSelf) :
    (runeToUpper T c).toNat = upperNat c.toNat := by
  have hA : ('A' : Char).toNat = 65 := rfl
  have hz : ('z' : Char).toNat = 122 := rfl
  have ha : ('a' : Char).toNat = 97 := rfl
  unfold RuneSelf at h
  simp only [runeToUpper, RuneSelf, h, if_true, char_le_iff, hA, hz, ha, upperNat]
  split_ifs with h1
  · rw [toNat_ofNat_small _ (by omega)]
  · rfl

theorem equalFoldRune_ascii (T : CaseTables) (a b : Char) (ha : a.toNat < RuneSelf)
    (hb : b.toNat < RuneSelf) :
    equalFoldRune T a b = true ↔ runeToLower T a = runeToLower T b := by
  have hA : ('A' : Char).toNat = 65 := rfl
  have hZ : ('Z' : Char).toNat = 90 := rfl
  have hla : ('a' : Char).toNat = 97 := rfl
  rw [char_eq_iff (runeToLower T a), runeToLower_toNat T a ha, runeToLower_toNat T b hb]
  unfold RuneSelf at ha hb
  unfold equalFoldRune
  by_cases hab : b = a
  · simp [hab]
  · have hne : b.toNat ≠ a.toNat := fun h => hab ((char_eq_iff b a).2 h)
    rw [if_neg hab]
    by_cases hlt : b < a
    · have hlt2 := (char_lt_iff b a).1 hlt
      simp only [hlt, if_true, RuneSelf, ha, char_le_iff, hA, hZ, hla, lowerNat,
        Bool.and_eq_true, decide_eq_true_eq, beq_iff_eq]
      split_ifs <;> omega
    · have hlt2 : ¬ b.toNat < a.toNat := fun h => hlt ((char_lt_iff b a).2 h)
      simp only [hlt, if_false, RuneSelf, hb, if_true, char_le_iff, hA, hZ, hla, lowerNat,
        Bool.and_eq_true, decide_eq_true_eq, beq_iff_eq]
      split_ifs <;> omega

theorem runeToUpper_ascii (T : CaseTables) (c : Char) (h : c.toNat < RuneSelf) :
    (runeToUpper T c).toNat < RuneSelf := by
  rw [runeToUpper_toNat T c h]
  unfold RuneSelf at *
  unfold upperNat
  split_ifs <;> omega

theorem runeToLower_ascii (T : CaseTables) (c : Char) (h : c.toNat < RuneSelf) :
    (runeToLower T c).toNat < RuneSelf := by
  rw [runeToLower_toNat T c h]
  unfold RuneSelf at *
  unfold lowerNat
  split_ifs <;> omega

theorem runeToLower_runeToUpper (T : CaseTables) (c : Char) (h : c.toNat < RuneSelf) :
    runeToLower T (runeToUpper T c) = runeToLower T c := by
  rw [char_eq_iff, runeToLower_toNat T _ (runeToUpper_ascii T c h), runeToUpper_toNat T c h,
    runeToLower_toNat T c h]
  unfold RuneSelf at h
  unfold lowerNat upperNat
  split_ifs <;> omega

theorem runeToLower_runeToLower (T : CaseTables) (c : Char) (h : c.toNat < RuneSelf) :
    runeToLower T (runeToLower T c) = runeToLower T c := by
  rw [char_eq_iff, runeToLower_toNat T _ (runeToLower_ascii T c h), runeToLower_toNat T c h]
  unfold RuneSelf at h
  unfold lowerNat
  split_ifs <;> omega

theorem equalFoldRunes_ascii (T : CaseTables) :
    ∀ s t : List Char, (∀ c ∈ s, c.toNat < RuneSelf) → (∀ c ∈ t, c.toNat < RuneSelf) →
      (equalFoldRunes T s t = true ↔ s.map (runeToLower T) = t.map (runeToLower T))
  | [], [], _, _ => by simp [equalFoldRunes]
  | [], _ :: _, _, _ => by simp [equalFoldRunes]
  | _ :: _, [], _, _ => by simp [equalFoldRunes]
  | a :: s, b :: t, hs, ht => by
    have ha := hs a (List.mem_cons_self a s)
    have hb := ht b (List.mem_cons_self b t)
    have ih := equalFoldRunes_ascii T s t (fun c hc => hs c (List.mem_cons_of_mem a hc))
      (fun c hc => ht c (List.mem_cons_of_mem b hc))
    simp only [equalFoldRunes, Bool.and_eq_true, List.map_cons, List.cons.injEq,
      equalFoldRune_ascii T a b ha hb, ih]

theorem isASCII_ToUpper (T : CaseTables) (s : String) (h : isASCII s) : isASCII (ToUpper T s) := by
  intro c hc
  simp only [ToUpper, List.mem_map] at hc
  obtain ⟨d, hd, rfl⟩ := hc
  exact runeToUpper_ascii T d (h d hd)

theorem isASCII_ToLower (T : CaseTables) (s : String) (h : isASCII s) : isASCII (ToLower T s) := by
  intro c hc
  simp only [ToLower, List.mem_map] at hc
  obtain ⟨d, hd, rfl⟩ := hc
  exact runeToLower_ascii T d (h d hd)

theorem ToLower_ToUpper (T : CaseTables) (s : String) (h : isASCII s) :
    ToLower T (ToUpper T s) = ToLower T s := by
  simp only [ToLower, ToUpper, List.map_map]
  congr 1
  exact List.map_congr_left (fun c hc => runeToLower_runeToUpper T c (h c hc))

theorem ToLower_ToLower (T : CaseTables) (s : String) (h : isASCII s) :
    ToLower T (ToLower T s) = ToLower T s := by
  simp only [ToLower, List.map_map]
  congr 1
  exact List.map_congr_left (fun c hc => runeToLower_runeToLower T c (h c hc))

/-- On ASCII strings `EqualFold` is equality of the lower-cased forms. -/
theorem EqualFold_ascii (T : CaseTables) (s t : String) (hs : isASCII s) (ht : isASCII t) :
    EqualFold T s t = true ↔ ToLower T s = ToLower T t := by
  unfold EqualFold ToLower
  rw [equalFoldRunes_ascii T s.data t.data hs ht]
  constructor
  · intro h; rw [h]
  · intro h; exact congrArg String.data h

theorem EqualFold_congr (T : CaseTables) (s s2 t t2 : String) (hs : isASCII s)
    (hs2 : isASCII s2) (ht : isASCII t) (ht2 : isASCII t2)
    (h1 : ToLower T s2 = ToLower T s) (h2 : ToLower T t2 = ToLower T t) :
    EqualFold T s2 t2 = EqualFold T s t := by
  rw [Bool.eq_iff_iff, EqualFold_ascii T s2 t2 hs2 ht2, EqualFold_ascii T s t hs ht, h1, h2]

/-! ## Folding by classes -/

theorem equalFoldRunes_key (T : CaseTables) (key : Char → Char)
    (hk : ∀ a b, equalFoldRune T a b = decide (key a = key b)) :
    ∀ s t : List Char, equalFoldRunes T s t = true ↔ s.map key = t.map key
  | [], [] => by simp [equalFoldRunes]
  | [], _ :: _ => by simp [equalFoldRunes]
  | _ :: _, [] => by simp [equalFoldRunes]
  | a :: s, b :: t => by
    simp only [equalFoldRunes, Bool.and_eq_true, List.map_cons, List.cons.injEq, hk a b,
      decide_eq_true_eq, equalFoldRunes_key T key hk s t]

theorem EqualFold_key (T : CaseTables) (key : Char → Char)
    (hk : ∀ a b, equalFoldRune T a b = decide (key a = key b)) (s t : String) :
    EqualFold T s t = true ↔ s.data.map key = t.data.map key :=
  equalFoldRunes_key T key hk s.data t.data

theorem EqualFold_key_congr (T : CaseTables) (key : Char → Char)
    (hk : ∀ a b, equalFoldRune T a b = decide (key a = key b)) (s s2 t t2 : String)
    (h1 : s2.data.map key = s.data.map key) (h2 : t2.data.map key = t.data.map key) :
    EqualFold T s2 t2 = EqualFold T s t := by
  rw [Bool.eq_iff_iff, EqualFold_key T key hk, EqualFold_key T key hk, h1, h2]

theorem map_key_ToUpper (T : CaseTables) (key : Char → Char) (s : String)
    (h : caseStable T key s) : (ToUpper T s).data.map key = s.data.map key := by
  simp only [ToUpper, List.map_map]
  exact List.map_congr_left (fun c hc => (h c hc).1)

theorem map_key_ToLower (T : CaseTables) (key : Char → Char) (s : String)
    (h : caseStable T key s) : (ToLower T s).data.map key = s.data.map key := by
  simp only [ToLower, List.map_map]
  exact List.map_congr_left (fun c hc => (h c hc).2)

/-- Under a table whose folding is a class test, ASCII strings are case stable. -/
theorem caseStable_of_isASCII (T : CaseTables) (key : Char → Char)
    (hk : ∀ a b, equalFoldRune T a b = decide (key a = key b)) (s : String) (h : isASCII s) :
    caseStable T key s := by
  intro c hc
  have hc2 := h c hc
  have e1 : equalFoldRune T (runeToUpper T c) c = true :=
    (equalFoldRune_ascii T _ c (runeToUpper_ascii T c hc2) hc2).2
      (runeToLower_runeToUpper T c hc2)
  have e2 : equalFoldRune T (runeToLower T c) c = true :=
    (equalFoldRune_ascii T _ c (runeToLower_ascii T c hc2) hc2).2
      (runeToLower_runeToLower T c hc2)
  rw [hk] at e1 e2
  exact ⟨of_decide_eq_true e1, of_decide_eq_true e2⟩

theorem equalFoldRune_of_key (T : CaseTables) (key : Char → Char)
    (hfold : ∀ lo hi, T.fold lo hi = decide (key lo = key hi))
    (hascii : ∀ c : Char, c.toNat < RuneSelf → key c = runeToLower T c) (a b : Char) :
    equalFoldRune T a b = decide (key a = key b) := by
  by_cases hab : b = a
  · simp [equalFoldRune, hab]
  · by_cases hboth : a.toNat < RuneSelf ∧ b.toNat < RuneSelf
    · rw [Bool.eq_iff_iff, equalFoldRune_ascii T a b hboth.1 hboth.2, hascii a hboth.1,
        hascii b hboth.2, decide_eq_true_eq]
    · have hne : b.toNat ≠ a.toNat := fun h => hab ((char_eq_iff b a).2 h)
      unfold equalFoldRune
      rw [if_neg hab]
      by_cases hlt : b < a
      · have hlt2 := (char_lt_iff b a).1 hlt
        have hhi : ¬ a.toNat < RuneSelf := fun h => hboth ⟨h, by omega⟩
        simp only [hlt, if_true, hhi, if_false, hfold]
        exact decide_eq_decide.2 eq_comm
      · have hlt2 : ¬ b.toNat < a.toNat := fun h => hlt ((char_lt_iff b a).2 h)
        have hhi : ¬ b.toNat < RuneSelf := fun h => hboth ⟨by omega, h⟩
        simp only [hlt, if_false, hhi, hfold]

theorem latin_fold (a b : Char) :
    equalFoldRune latin a b = decide (sampleKey a = sampleKey b) := by
  refine equalFoldRune_of_key latin sampleKey (fun _ _ => rfl) ?_ a b
  intro c hc
  simp [sampleKey, runeToLower, hc]

/-- Under `latin` the runes of "JÖRG", "jörg" and the Kelvin sign keep their class under
both conversions, and U+0131 and U+0130 do not. -/
theorem caseStable_latin_boundary :
    caseStable latin sampleKey "JÖRG jörg \u212A" ∧ ¬ caseStable latin sampleKey "ı"
      ∧ ¬ caseStable latin sampleKey "İ" := by
  decide

/-! ## String plumbing -/

theorem join_not_exist (x : String) :
    " does not exist" ++ (" (Name: " ++ x) = " does not exist (Name: " ++ x := by
  rw [← String.append_assoc]; rfl

theorem join_state (x : String) : " state" ++ (" (Name: " ++ x) = " state (Name: " ++ x := by
  rw [← String.append_assoc]; rfl

/-! ## ProcessInfo -/

/-- C1: when the actual name does not fold-equal the desired name, ProcessInfo returns
code 2 and the "does not exist" message followed by the actual triple, whatever the
state and user fields hold. -/
theorem ProcessInfo_name_mismatch (T : CaseTables) (i : serviceInfo)
    (hname : EqualFold T i.actualName i.desiredName = false) :
    i.ProcessInfo T =
      ("CheckService CRITICAL - " ++ i.desiredName ++ " does not exist (Name: "
        ++ i.actualName ++ ", State: " ++ i.actualState ++ ", User: " ++ i.actualUser ++ ")", 2)
    ∧ ∃ pre post, (i.ProcessInfo T).1 = pre ++ "does not exist" ++ post := by
  have h : i.ProcessInfo T =
      ("CheckService CRITICAL - " ++ i.desiredName ++ " does not exist (Name: "
        ++ i.actualName ++ ", State: " ++ i.actualState ++ ", User: " ++ i.actualUser ++ ")", 2) := by
    simp [serviceInfo.ProcessInfo, serviceInfo.checkInfo, serviceInfo.IsName,
      serviceInfo.ActualName, serviceInfo.ActualState, serviceInfo.ActualUser,
      serviceInfo.actualInfo, hname, String.append_assoc]
    rw [join_not_exist]
  refine ⟨h, "CheckService CRITICAL - " ++ i.desiredName ++ " ",
    " (Name: " ++ i.actualName ++ ", State: " ++ i.actualState ++ ", User: " ++ i.actualUser
      ++ ")", ?_⟩
  rw [h]
  have e : " does not exist (Name: " = " " ++ "does not exist" ++ " (Name: " := by decide
  simp only [e, String.append_assoc]

/-- Witness of C1: desired `cron` against the actual `sshd` / `running` / `root`. -/
theorem ProcessInfo_name_mismatch_witness :
    EqualFold asciiOnly "sshd" "cron" = false ∧
    ({ sshd "running" "root" with desiredName := "cron" } : serviceInfo).ProcessInfo asciiOnly =
      ("CheckService CRITICAL - cron does not exist (Name: sshd, State: running, User: root)", 2) :=
  ⟨by decide,
    (ProcessInfo_name_mismatch asciiOnly { sshd "running" "root" with desiredName := "cron" }
      (by decide)).1.trans (by decide)⟩

/-- C2: with a matching name and both a desired state and a desired user, ProcessInfo
returns 0 exactly when the actual state and the actual user both fold-equal the desired
ones, and 2 otherwise; the success detail names the actual values and the failure detail
the desired ones. -/
theorem ProcessInfo_state_and_user (T : CaseTables) (i : serviceInfo)
    (hname : EqualFold T i.actualName i.desiredName = true)
    (hs : i.desiredState ≠ "") (hu : i.desiredUser ≠ "") :
    ((i.ProcessInfo T).2 = 0 ↔
      (EqualFold T i.actualState i.desiredState = true ∧
        EqualFold T i.actualUser i.desiredUser = true))
    ∧ (¬ (EqualFold T i.actualState i.desiredState = true ∧
          EqualFold T i.actualUser i.desiredUser = true) → (i.ProcessInfo T).2 = 2)
    ∧ ((EqualFold T i.actualState i.desiredState = true ∧
          EqualFold T i.actualUser i.desiredUser = true) →
        i.ProcessInfo T =
          ("CheckService OK - " ++ i.actualName ++ " in a " ++ i.actualState
            ++ " state and started by user " ++ i.actualUser, 0))
    ∧ (¬ (EqualFold T i.actualState i.desiredState = true ∧
          EqualFold T i.actualUser i.desiredUser = true) →
        i.ProcessInfo T =
          ("CheckService CRITICAL - " ++ i.actualName ++ " either not in a " ++ i.desiredState
            ++ " state or not started by user " ++ i.desiredUser ++ " (Name: " ++ i.actualName
            ++ ", State: " ++ i.actualState ++ ", User: " ++ i.actualUser ++ ")", 2)) := by
  cases hst : EqualFold T i.actualState i.desiredState <;>
    cases hus : EqualFold T i.actualUser i.desiredUser <;>
    simp [serviceInfo.ProcessInfo, serviceInfo.checkInfo, serviceInfo.IsName,
      serviceInfo.IsState, serviceInfo.IsUser, serviceInfo.ActualName, serviceInfo.ActualState,
      serviceInfo.ActualUser, serviceInfo.actualInfo, hname, hs, hu, hst, hus,
      String.append_assoc]

/-- Witness of C2: desired `sshd` / `running` / `root` against the same actual triple. -/
theorem ProcessInfo_state_and_user_witness :
    (sshd "running" "root").ProcessInfo asciiOnly =
      ("CheckService OK - sshd in a running state and started by user root", 0) :=
  ((ProcessInfo_state_and_user asciiOnly (sshd "running" "root") (by decide) (by decide)
    (by decide)).2.2.1 (by decide)).trans (by decide)

/-- C3: with a matching name, a desired state and no desired user, ProcessInfo returns 0
exactly when the actual state fold-equals the desired state and 2 otherwise, with the
messages of the state-only branch. -/
theorem ProcessInfo_state_only (T : CaseTables) (i : serviceInfo)
    (hname : EqualFold T i.actualName i.desiredName = true)
    (hs : i.desiredState ≠ "") (hu : i.desiredUser = "") :
    ((i.ProcessInfo T).2 = 0 ↔ EqualFold T i.actualState i.desiredState = true)
    ∧ (EqualFold T i.actualState i.desiredState = false → (i.ProcessInfo T).2 = 2)
    ∧ (EqualFold T i.actualState i.desiredState = true →
        i.ProcessInfo T =
          ("CheckService OK - " ++ i.actualName ++ " in a " ++ i.actualState ++ " state", 0))
    ∧ (EqualFold T i.actualState i.desiredState = false →
        i.ProcessInfo T =
          ("CheckService CRITICAL - " ++ i.actualName ++ " not in a " ++ i.desiredState
            ++ " state (Name: " ++ i.actualName ++ ", State: " ++ i.actualState ++ ", User: "
            ++ i.actualUser ++ ")", 2)) := by
  cases hst : EqualFold T i.actualState i.desiredState <;>
    simp [serviceInfo.ProcessInfo, serviceInfo.checkInfo, serviceInfo.IsName,
      serviceInfo.IsState, serviceInfo.ActualName, serviceInfo.ActualState,
      serviceInfo.ActualUser, serviceInfo.actualInfo, hname, hs, hu, hst,
      String.append_assoc, join_state]

/-- Witness of C3: the two end-to-end scenarios, desired `sshd` / `running` and
`sshd` / `stopped` against the actual `sshd` / `running` / `root`. -/
theorem ProcessInfo_state_only_witness :
    (sshd "running" "").ProcessInfo asciiOnly
      = ("CheckService OK - sshd in a running state", 0)
    ∧ (sshd "stopped" "").ProcessInfo asciiOnly
      = ("CheckService CRITICAL - sshd not in a stopped state (Name: sshd, State: running, User: root)",
          2) :=
  ⟨((ProcessInfo_state_only asciiOnly (sshd "running" "") (by decide) (by decide)
      (by decide)).2.2.1 (by decide)).trans (by decide),
   ((ProcessInfo_state_only asciiOnly (sshd "stopped" "") (by decide) (by decide)
      (by decide)).2.2.2 (by decide)).trans (by decide)⟩

/-- C4: with a matching name, a desired user and no desired state, ProcessInfo returns 0
exactly when the actual user fold-equals the desired user and 2 otherwise, whatever the
actual state is, with the messages of the user-only branch. -/
theorem ProcessInfo_user_only (T : CaseTables) (i : serviceInfo)
    (hname : EqualFold T i.actualName i.desiredName = true)
    (hs : i.desiredState = "") (hu : i.desiredUser ≠ "") :
    ((i.ProcessInfo T).2 = 0 ↔ EqualFold T i.actualUser i.desiredUser = true)
    ∧ (EqualFold T i.actualUser i.desiredUser = false → (i.ProcessInfo T).2 = 2)
    ∧ (∀ state : String,
        (({ i with actualState := state } : serviceInfo).ProcessInfo T).2 = (i.ProcessInfo T).2)
    ∧ (EqualFold T i.actualUser i.desiredUser = true →
        i.ProcessInfo T =
          ("CheckService OK - " ++ i.actualName ++ " started by user " ++ i.actualUser, 0))
    ∧ (EqualFold T i.actualUser i.desiredUser = false →
        i.ProcessInfo T =
          ("CheckService CRITICAL - " ++ i.actualName ++ " not started by user "
            ++ i.desiredUser ++ " (Name: " ++ i.actualName ++ ", State: " ++ i.actualState
            ++ ", User: " ++ i.actualUser ++ ")", 2)) := by
  cases hus : EqualFold T i.actualUser i.desiredUser <;>
    simp [serviceInfo.ProcessInfo, serviceInfo.checkInfo, serviceInfo.IsName,
      serviceInfo.IsUser, serviceInfo.ActualName, serviceInfo.ActualState,
      serviceInfo.ActualUser, serviceInfo.actualInfo, hname, hs, hu, hus,
      String.append_assoc]

/-- Witness of C4: desired `sshd` started by `ROOT` against the actual `sshd` / `running` /
`root`. -/
theorem ProcessInfo_user_only_witness :
    (sshd "" "ROOT").ProcessInfo asciiOnly
      = ("CheckService OK - sshd started by user root", 0) :=
  ((ProcessInfo_user_only asciiOnly (sshd "" "ROOT") (by decide) (by decide)
    (by decide)).2.2.2.1 (by decide)).trans (by decide)

/-- C5: with a matching name and neither a desired state nor a desired user, ProcessInfo
returns 0 for every actual state and user and reports both. -/
theorem ProcessInfo_existence_only (T : CaseTables) (i : serviceInfo)
    (hname : EqualFold T i.actualName i.desiredName = true)
    (hs : i.desiredState = "") (hu : i.desiredUser = "") :
    i.ProcessInfo T =
      ("CheckService OK - " ++ i.actualName ++ " in a " ++ i.actualState
        ++ " state and started by user " ++ i.actualUser, 0) := by
  simp [serviceInfo.ProcessInfo, serviceInfo.checkInfo, serviceInfo.IsName,
    serviceInfo.ActualName, serviceInfo.ActualState, serviceInfo.ActualUser, hname, hs, hu,
    String.append_assoc]

/-- Witness of C5: desired `SSHD` alone against the actual `sshd` / `running` / `root`. -/
theorem ProcessInfo_existence_only_witness :
    ({ sshd "" "" with desiredName := "SSHD" } : serviceInfo).ProcessInfo asciiOnly =
      ("CheckService OK - sshd in a running state and started by user root", 0) :=
  (ProcessInfo_existence_only asciiOnly { sshd "" "" with desiredName := "SSHD" } (by decide)
    (by decide) (by decide)).trans (by decide)

/-- C6: the message is "CheckService OK - detail" with nothing after the detail when the
code is 0, and "CheckService CRITICAL - detail (Name: .., State: .., User: ..)" with the
actual name, state and user when the code is not 0, where detail and code are those
assigned by the cascade. -/
theorem ProcessInfo_message_form (T : CaseTables) (i : serviceInfo) :
    (i.ProcessInfo T).2 = (i.checkInfo T).2
    ∧ ((i.ProcessInfo T).2 = 0 →
        (i.ProcessInfo T).1 = "CheckService OK - " ++ (i.checkInfo T).1)
    ∧ ((i.ProcessInfo T).2 ≠ 0 →
        (i.ProcessInfo T).1 =
          "CheckService CRITICAL - " ++ (i.checkInfo T).1 ++ " (Name: " ++ i.actualName
            ++ ", State: " ++ i.actualState ++ ", User: " ++ i.actualUser ++ ")") := by
  by_cases h : (i.checkInfo T).2 = 0 <;>
    simp [serviceInfo.ProcessInfo, serviceInfo.actualInfo, serviceInfo.ActualName,
      serviceInfo.ActualState, serviceInfo.ActualUser, h, String.append_assoc]

/-- C7: the code returned by ProcessInfo is 0 or 2 for every record. -/
theorem ProcessInfo_code (T : CaseTables) (i : serviceInfo) :
    (i.ProcessInfo T).2 = 0 ∨ (i.ProcessInfo T).2 = 2 := by
  have h : (i.ProcessInfo T).2 = (i.checkInfo T).2 := rfl
  rw [h]
  unfold serviceInfo.checkInfo
  split_ifs <;> simp

/-- C8 fails as stated: with actual state "I", IsState rejects the dotless i (U+0131) but
accepts its upper-cased form, and with actual state "i", IsState rejects the dotted
capital I (U+0130) but accepts its lower-cased form. -/
theorem IsState_case_conversion_counterexample :
    (({ sshd "" "" with actualState := "I" } : serviceInfo).IsState turkic "ı" = false
      ∧ ({ sshd "" "" with actualState := "I" } : serviceInfo).IsState turkic
          (ToUpper turkic "ı") = true)
    ∧ (({ sshd "" "" with actualState := "i" } : serviceInfo).IsState turkic "İ" = false
      ∧ ({ sshd "" "" with actualState := "i" } : serviceInfo).IsState turkic
          (ToLower turkic "İ") = true) := by
  decide

/-- C8 as amended: IsName, IsState and IsUser never depend on the desired fields; when
the argument and the actual field are ASCII they hold exactly when both have the same
lower-cased form and are unchanged when either side is upper-cased or lower-cased; and
under case data whose folding is a test of fold classes they hold exactly when both
sides have the same classes rune by rune, and are unchanged when a side is upper-cased
or lower-cased provided every rune of that side stays in its class under both
conversions, which every ASCII rune does. -/
theorem Is_predicates_case_folding (T : CaseTables) (i : serviceInfo) (s : String) :
    (∀ dn ds du : String,
        ({ i with desiredName := dn, desiredState := ds, desiredUser := du } : serviceInfo).IsName
            T s = i.IsName T s
        ∧ ({ i with desiredName := dn, desiredState := ds, desiredUser := du } : serviceInfo).IsState
            T s = i.IsState T s
        ∧ ({ i with desiredName := dn, desiredState := ds, desiredUser := du } : serviceInfo).IsUser
            T s = i.IsUser T s)
    ∧ (isASCII s → isASCII i.actualName →
        (i.IsName T s = true ↔ ToLower T i.actualName = ToLower T s)
        ∧ i.IsName T (ToUpper T s) = i.IsName T s ∧ i.IsName T (ToLower T s) = i.IsName T s
        ∧ ({ i with actualName := ToUpper T i.actualName } : serviceInfo).IsName T s
            = i.IsName T s
        ∧ ({ i with actualName := ToLower T i.actualName } : serviceInfo).IsName T s
            = i.IsName T s)
    ∧ (isASCII s → isASCII i.actualState →
        (i.IsState T s = true ↔ ToLower T i.actualState = ToLower T s)
        ∧ i.IsState T (ToUpper T s) = i.IsState T s ∧ i.IsState T (ToLower T s) = i.IsState T s
        ∧ ({ i with actualState := ToUpper T i.actualState } : serviceInfo).IsState T s
            = i.IsState T s
        ∧ ({ i with actualState := ToLower T i.actualState } : serviceInfo).IsState T s
            = i.IsState T s)
    ∧ (isASCII s → isASCII i.actualUser →
        (i.IsUser T s = true ↔ ToLower T i.actualUser = ToLower T s)
        ∧ i.IsUser T (ToUpper T s) = i.IsUser T s ∧ i.IsUser T (ToLower T s) = i.IsUser T s
        ∧ ({ i with actualUser := ToUpper T i.actualUser } : serviceInfo).IsUser T s
            = i.IsUser T s
        ∧ ({ i with actualUser := ToLower T i.actualUser } : serviceInfo).IsUser T s
            = i.IsUser T s)
    ∧ (∀ key : Char → Char, (∀ a b : Char, equalFoldRune T a b = decide (key a = key b)) →
        ((i.IsName T s = true ↔ i.actualName.data.map key = s.data.map key)
          ∧ (i.IsState T s = true ↔ i.actualState.data.map key = s.data.map key)
          ∧ (i.IsUser T s = true ↔ i.actualUser.data.map key = s.data.map key))
        ∧ (caseStable T key s →
            i.IsName T (ToUpper T s) = i.IsName T s ∧ i.IsName T (ToLower T s) = i.IsName T s
            ∧ i.IsState T (ToUpper T s) = i.IsState T s
            ∧ i.IsState T (ToLower T s) = i.IsState T s
            ∧ i.IsUser T (ToUpper T s) = i.IsUser T s ∧ i.IsUser T (ToLower T s) = i.IsUser T s)
        ∧ (caseStable T key i.actualName →
            ({ i with actualName := ToUpper T i.actualName } : serviceInfo).IsName T s
              = i.IsName T s
            ∧ ({ i with actualName := ToLower T i.actualName } : serviceInfo).IsName T s
              = i.IsName T s)
        ∧ (caseStable T key i.actualState →
            ({ i with actualState := ToUpper T i.actualState } : serviceInfo).IsState T s
              = i.IsState T s
            ∧ ({ i with actualState := ToLower T i.actualState } : serviceInfo).IsState T s
              = i.IsState T s)
        ∧ (caseStable T key i.actualUser →
            ({ i with actualUser := ToUpper T i.actualUser } : serviceInfo).IsUser T s
              = i.IsUser T s
            ∧ ({ i with actualUser := ToLower T i.actualUser } : serviceInfo).IsUser T s
              = i.IsUser T s)
        ∧ (isASCII s → caseStable T key s)) := by
  have ascii : ∀ a : String, isASCII s → isASCII a →
      (EqualFold T a s = true ↔ ToLower T a = ToLower T s)
      ∧ EqualFold T a (ToUpper T s) = EqualFold T a s
      ∧ EqualFold T a (ToLower T s) = EqualFold T a s
      ∧ EqualFold T (ToUpper T a) s = EqualFold T a s
      ∧ EqualFold T (ToLower T a) s = EqualFold T a s :=
    fun a hs ha =>
      ⟨EqualFold_ascii T a s ha hs,
        EqualFold_congr T a a s _ ha ha hs (isASCII_ToUpper T s hs) rfl (ToLower_ToUpper T s hs),
        EqualFold_congr T a a s _ ha ha hs (isASCII_ToLower T s hs) rfl (ToLower_ToLower T s hs),
        EqualFold_congr T a _ s s ha (isASCII_ToUpper T a ha) hs hs (ToLower_ToUpper T a ha) rfl,
        EqualFold_congr T a _ s s ha (isASCII_ToLower T a ha) hs hs (ToLower_ToLower T a ha)
          rfl⟩
  refine ⟨fun _ _ _ => ⟨rfl, rfl, rfl⟩, ascii _, ascii _, ascii _, ?_⟩
  intro key hk
  have arg : caseStable T key s → ∀ a : String,
      EqualFold T a (ToUpper T s) = EqualFold T a s
      ∧ EqualFold T a (ToLower T s) = EqualFold T a s :=
    fun h a =>
      ⟨EqualFold_key_congr T key hk a a s _ rfl (map_key_ToUpper T key s h),
        EqualFold_key_congr T key hk a a s _ rfl (map_key_ToLower T key s h)⟩
  have act : ∀ a : String, caseStable T key a →
      EqualFold T (ToUpper T a) s = EqualFold T a s
      ∧ EqualFold T (ToLower T a) s = EqualFold T a s :=
    fun a h =>
      ⟨EqualFold_key_congr T key hk a _ s s (map_key_ToUpper T key a h) rfl,
        EqualFold_key_congr T key hk a _ s s (map_key_ToLower T key a h) rfl⟩
  exact ⟨⟨EqualFold_key T key hk _ s, EqualFold_key T key hk _ s, EqualFold_key T key hk _ s⟩,
    fun h => ⟨(arg h _).1, (arg h _).2, (arg h _).1, (arg h _).2, (arg h _).1, (arg h _).2⟩,
    act _, act _, act _, caseStable_of_isASCII T key hk s⟩

/-- Witness of C8: IsState "Running" holds when the actual state is "running" and the
user is not ASCII, and with the actual user "jörg" IsUser holds on "JÖRG" and on its
lower-cased form. -/
theorem Is_predicates_case_folding_witness :
    (({ sshd "" "" with actualUser := "jörg" } : serviceInfo).IsState latin "Running" = true
      ∧ ({ sshd "" "" with actualUser := "jörg" } : serviceInfo).IsState latin
          (ToUpper latin "Running") = true)
    ∧ (({ sshd "" "" with actualUser := "jörg" } : serviceInfo).IsUser latin "JÖRG" = true
      ∧ ({ sshd "" "" with actualUser := "jörg" } : serviceInfo).IsUser latin
          (ToLower latin "JÖRG") = true
      ∧ ({ sshd "" "" with actualUser := ToUpper latin "jörg" } : serviceInfo).IsUser latin
          "JÖRG" = true) :=
  have h := (Is_predicates_case_folding latin { sshd "" "" with actualUser := "jörg" }
    "Running").2.2.1 (by decide) (by decide)
  have g := (Is_predicates_case_folding latin { sshd "" "" with actualUser := "jörg" }
    "JÖRG").2.2.2.2 sampleKey latin_fold
  have gu : ({ sshd "" "" with actualUser := "jörg" } : serviceInfo).IsUser latin "JÖRG" = true :=
    g.1.2.2.2 (by decide)
  ⟨⟨h.1.2 (by decide), h.2.1.trans (h.1.2 (by decide))⟩,
    ⟨gu, ((g.2.1 (by decide)).2.2.2.2.2).trans gu, ((g.2.2.2.2.1 (by decide)).1).trans gu⟩⟩

/-! ## GetInfo -/

/-- C9: without a handler GetInfo returns the error "No get service info handler declared",
calls nothing and leaves the record as it was. -/
theorem GetInfo_no_handler (i : serviceInfo) (h : i.getServiceInfo = none) :
    i.GetInfo.err = some (errors.New "No get service info handler declared")
    ∧ i.GetInfo.err ≠ none
    ∧ i.GetInfo.info = i
    ∧ i.GetInfo.calls = [] := by
  simp [serviceInfo.GetInfo, h]

/-- Witness of C9: the scenario record has no handler. -/
theorem GetInfo_no_handler_witness :
    (sshd "running" "").GetInfo.err = some ⟨"No get service info handler declared"⟩
    ∧ (sshd "running" "").GetInfo.info.actualState = "running" :=
  have h := GetInfo_no_handler (sshd "running" "") rfl
  ⟨h.1, by rw [h.2.2.1]; rfl⟩

/-- C10: with a handler f and f desiredName = (n, u, s, e), GetInfo calls f once, on
desiredName, stores n, u and s as the actual name, user and state whether or not e is
nil, returns e itself, and leaves the desired fields and the handler unchanged. -/
theorem GetInfo_handler (i : serviceInfo)
    (f : String → String × String × String × Option error) (n u s : String) (e : Option error)
    (h : i.getServiceInfo = some f) (hf : f i.desiredName = (n, u, s, e)) :
    i.GetInfo.calls = [i.desiredName]
    ∧ i.GetInfo.info.actualName = n
    ∧ i.GetInfo.info.actualUser = u
    ∧ i.GetInfo.info.actualState = s
    ∧ i.GetInfo.err = e
    ∧ (i.GetInfo.err = none ↔ e = none)
    ∧ i.GetInfo.info.desiredName = i.desiredName
    ∧ i.GetInfo.info.desiredState = i.desiredState
    ∧ i.GetInfo.info.desiredUser = i.desiredUser
    ∧ i.GetInfo.info.getServiceInfo = i.getServiceInfo := by
  simp [serviceInfo.GetInfo, h, hf]

/-- Witness of C10: a successful acquisition of `sshd` and a failing one of `ghost`; the
actual fields are overwritten in both. -/
theorem GetInfo_handler_witness :
    (({ sshd "" "" with actualState := "old", getServiceInfo := some sampleHandler }
        : serviceInfo).GetInfo.info.actualState = "running"
      ∧ ({ sshd "" "" with actualState := "old", getServiceInfo := some sampleHandler }
        : serviceInfo).GetInfo.err = none)
    ∧ (({ sshd "" "" with desiredName := "ghost", getServiceInfo := some sampleHandler }
        : serviceInfo).GetInfo.info.actualState = "dead"
      ∧ ({ sshd "" "" with desiredName := "ghost", getServiceInfo := some sampleHandler }
        : serviceInfo).GetInfo.err = some (errors.New "no such unit")) :=
  have h1 := GetInfo_handler
    { sshd "" "" with actualState := "old", getServiceInfo := some sampleHandler }
    sampleHandler "sshd" "root" "running" none rfl (by decide)
  have h2 := GetInfo_handler
    { sshd "" "" with desiredName := "ghost", getServiceInfo := some sampleHandler }
    sampleHandler "?" "nobody" "dead" (some (errors.New "no such unit")) rfl (by decide)
  ⟨⟨h1.2.2.2.1, h1.2.2.2.2.1⟩, ⟨h2.2.2.2.1, h2.2.2.2.2.1⟩⟩

/-! ## ProcessInfo as one conjunction, and on a record never acquired -/

theorem EqualFold_empty_left (T : CaseTables) (s : String) :
    EqualFold T "" s = true ↔ s = "" := by
  obtain ⟨l⟩ := s
  cases l with
  | nil => simp [EqualFold, equalFoldRunes]
  | cons c t =>
    have hne : String.mk (c :: t) ≠ "" := fun h => by
      have := congrArg String.data h
      simp at this
    simp [EqualFold, equalFoldRunes, hne]

/-- C17: the cascade of ProcessInfo is one conjunction: the code is 0 exactly when the
name matches, the desired state is empty or matches, and the desired user is empty or
matches; otherwise the code is 2. -/
theorem ProcessInfo_code_iff (T : CaseTables) (i : serviceInfo) :
    ((i.ProcessInfo T).2 = 0 ↔
      (i.IsName T i.desiredName = true
        ∧ (i.desiredState = "" ∨ i.IsState T i.desiredState = true)
        ∧ (i.desiredUser = "" ∨ i.IsUser T i.desiredUser = true)))
    ∧ (¬ (i.IsName T i.desiredName = true
        ∧ (i.desiredState = "" ∨ i.IsState T i.desiredState = true)
        ∧ (i.desiredUser = "" ∨ i.IsUser T i.desiredUser = true)) →
      (i.ProcessInfo T).2 = 2) := by
  have h : (i.ProcessInfo T).2 = (i.checkInfo T).2 := rfl
  rw [h]
  unfold serviceInfo.checkInfo
  cases hn : i.IsName T i.desiredName <;> cases hs : i.IsState T i.desiredState <;>
    cases hu : i.IsUser T i.desiredUser <;>
    by_cases hds : i.desiredState = "" <;> by_cases hdu : i.desiredUser = "" <;>
    simp [hds, hdu]

/-- C18: on a record whose actual fields are all empty the name check passes exactly when
desiredName is empty: a non-empty desiredName gives code 2 with the detail
"desiredName does not exist", and an empty desiredName with no desired state or user
gives code 0 with the message built from three empty fields. -/
theorem ProcessInfo_never_acquired (T : CaseTables) (i : serviceInfo)
    (hn : i.actualName = "") (hs : i.actualState = "") (hu : i.actualUser = "") :
    (i.IsName T i.desiredName = true ↔ i.desiredName = "")
    ∧ (i.desiredName ≠ "" →
        (i.checkInfo T).1 = i.desiredName ++ " does not exist"
        ∧ i.ProcessInfo T =
            ("CheckService CRITICAL - " ++ i.desiredName
              ++ " does not exist (Name: , State: , User: )", 2))
    ∧ (i.desiredName = "" → i.desiredState = "" → i.desiredUser = "" →
        i.ProcessInfo T = ("CheckService OK -  in a  state and started by user ", 0)) := by
  have hname : i.IsName T i.desiredName = true ↔ i.desiredName = "" := by
    unfold serviceInfo.IsName serviceInfo.ActualName
    rw [hn]
    exact EqualFold_empty_left T i.desiredName
  refine ⟨hname, ?_, ?_⟩
  · intro hd
    have hf : i.IsName T i.desiredName = false := by
      cases h : i.IsName T i.desiredName
      · rfl
      · exact absurd (hname.1 h) hd
    simp [serviceInfo.ProcessInfo, serviceInfo.checkInfo, serviceInfo.ActualName,
      serviceInfo.ActualState, serviceInfo.ActualUser, serviceInfo.actualInfo, hf, hn, hs, hu,
      String.append_assoc]
  · intro hd hds hdu
    have ht : i.IsName T i.desiredName = true := hname.2 hd
    simp [serviceInfo.ProcessInfo, serviceInfo.checkInfo, serviceInfo.ActualName,
      serviceInfo.ActualState, serviceInfo.ActualUser, ht, hn, hs, hu, hds, hdu]

/-- Witness of C18: a record never acquired with desired name `sshd`, and one with every
field empty. -/
theorem ProcessInfo_never_acquired_witness :
    ((⟨"sshd", "running", "", "", "", "", none⟩ : serviceInfo).ProcessInfo asciiOnly =
      ("CheckService CRITICAL - sshd does not exist (Name: , State: , User: )", 2))
    ∧ ((⟨"", "", "", "", "", "", none⟩ : serviceInfo).ProcessInfo asciiOnly =
      ("CheckService OK -  in a  state and started by user ", 0)) :=
  ⟨((ProcessInfo_never_acquired asciiOnly ⟨"sshd", "running", "", "", "", "", none⟩ rfl rfl
      rfl).2.1 (by decide)).2.trans (by decide),
   (ProcessInfo_never_acquired asciiOnly ⟨"", "", "", "", "", "", none⟩ rfl rfl rfl).2.2 rfl rfl
      rfl⟩

namespace perfcounters

/-! ## TrimSpace -/

theorem rdropWhile_append_of_pos (p : Char → Bool) (l post : List Char)
    (h : ∀ c ∈ post, p c = true) : (l ++ post).rdropWhile p = l.rdropWhile p := by
  unfold List.rdropWhile
  rw [List.reverse_append,
    List.dropWhile_append_of_pos (fun c hc => h c (List.mem_reverse.1 hc))]

theorem trim_append_of_pos (p : Char → Bool) (post : List Char) (h : ∀ c ∈ post, p c = true) :
    ∀ l : List Char,
      ((l ++ post).dropWhile p).rdropWhile p = (l.dropWhile p).rdropWhile p
  | [] => by
    have h1 : post.dropWhile p = [] := List.dropWhile_eq_nil_iff.2 h
    simp [h1]
  | a :: l => by
    by_cases ha : p a = true
    · simp only [List.cons_append, List.dropWhile_cons, ha, if_true]
      exact trim_append_of_pos p post h l
    · simp only [List.cons_append, List.dropWhile_cons, ha]
      exact rdropWhile_append_of_pos p (a :: l) post h

/-- White space added before and after a string does not change what TrimSpace returns. -/
theorem TrimSpace_pad (pre s post : String) (hpre : ∀ c ∈ pre.data, IsSpace c = true)
    (hpost : ∀ c ∈ post.data, IsSpace c = true) : TrimSpace (pre ++ s ++ post) = TrimSpace s := by
  unfold TrimSpace
  congr 1
  rw [String.data_append, String.data_append, List.append_assoc,
    List.dropWhile_append_of_pos hpre]
  exact trim_append_of_pos IsSpace post.data hpost s.data

theorem sampleParseFloat_42_5 : sampleParseFloat "42.5" = (42.5, none) := by
  simp [sampleParseFloat, digitsValue]
  norm_num

/-! ## ReadPerformanceCounterWithHandler -/

/-- C11: with a nil executor ReadPerformanceCounterWithHandler returns the error
"No Powershell Execute service" and the empty reading (Name "", Value 0), and executes
nothing, whatever the counter name, attempts and delay are. -/
theorem Read_nil_executor {F : Type} [Zero F] (ParseFloat : String → F × Option error)
    (counter : String) (pollingAttempts pollingDelay : Int) :
    (ReadPerformanceCounterWithHandler ParseFloat none counter pollingAttempts pollingDelay).err
        = some (errors.New "No Powershell Execute service")
    ∧ (ReadPerformanceCounterWithHandler ParseFloat none counter pollingAttempts pollingDelay).err
        ≠ none
    ∧ (ReadPerformanceCounterWithHandler ParseFloat none counter pollingAttempts
        pollingDelay).counter = { Name := "", Value := 0 }
    ∧ (ReadPerformanceCounterWithHandler ParseFloat none counter pollingAttempts
        pollingDelay).executed = [] := by
  simp [ReadPerformanceCounterWithHandler]

/-- C12: when Execute returns stdout with a nil error and the trimmed stdout parses to v,
the reading is the counter name with value v and the error is nil; an executor returning
the same stdout with white space added in front and behind gives the same result. -/
theorem Read_success {F : Type} [Zero F] (ParseFloat : String → F × Option error)
    (svc : powerShellService) (counter : String) (pollingAttempts pollingDelay : Int)
    (stdout stderr : String) (v : F)
    (hx : svc.Execute [command counter pollingAttempts pollingDelay] = (stdout, stderr, none))
    (hp : ParseFloat (TrimSpace stdout) = (v, none)) :
    (ReadPerformanceCounterWithHandler ParseFloat (some svc) counter pollingAttempts
        pollingDelay).counter = { Name := counter, Value := v }
    ∧ (ReadPerformanceCounterWithHandler ParseFloat (some svc) counter pollingAttempts
        pollingDelay).err = none
    ∧ ∀ (svc2 : powerShellService) (pre post stderr2 : String),
        (∀ c ∈ pre.data, IsSpace c = true) → (∀ c ∈ post.data, IsSpace c = true) →
        svc2.Execute [command counter pollingAttempts pollingDelay]
          = (pre ++ stdout ++ post, stderr2, none) →
        ReadPerformanceCounterWithHandler ParseFloat (some svc2) counter pollingAttempts
            pollingDelay
          = ReadPerformanceCounterWithHandler ParseFloat (some svc) counter pollingAttempts
            pollingDelay := by
  refine ⟨?_, ?_, ?_⟩
  · simp [ReadPerformanceCounterWithHandler, hx, hp]
  · simp [ReadPerformanceCounterWithHandler, hx, hp]
  · intro svc2 pre post stderr2 hpre hpost hx2
    simp [ReadPerformanceCounterWithHandler, hx, hx2, hp, TrimSpace_pad pre stdout post hpre hpost]

/-- Witness of C12: stdout "  42.5\n" yields the value 42.5 and no error. -/
theorem Read_success_witness :
    (ReadPerformanceCounterWithHandler sampleParseFloat (some (fixedService "  42.5\n" "" none))
        "cpu" 3 1).counter = { Name := "cpu", Value := 42.5 }
    ∧ (ReadPerformanceCounterWithHandler sampleParseFloat
        (some (fixedService "  42.5\n" "" none)) "cpu" 3 1).err = none :=
  have h := Read_success sampleParseFloat (fixedService "  42.5\n" "" none) "cpu" 3 1
    "  42.5\n" "" 42.5 rfl
    ((congrArg sampleParseFloat (by decide : TrimSpace "  42.5\n" = "42.5")).trans
      sampleParseFloat_42_5)
  ⟨h.1, h.2.1⟩

/-- C13: when Execute returns a non-nil error e, ReadPerformanceCounterWithHandler has
called Execute once, returns e itself with the reading of value 0 under the counter name,
and the result does not depend on the parser: stdout is not parsed. -/
theorem Read_execute_error {F : Type} [Zero F] (ParseFloat : String → F × Option error)
    (svc : powerShellService) (counter : String) (pollingAttempts pollingDelay : Int)
    (stdout stderr : String) (e : error)
    (hx : svc.Execute [command counter pollingAttempts pollingDelay] = (stdout, stderr, some e)) :
    (ReadPerformanceCounterWithHandler ParseFloat (some svc) counter pollingAttempts
        pollingDelay).err = some e
    ∧ (ReadPerformanceCounterWithHandler ParseFloat (some svc) counter pollingAttempts
        pollingDelay).counter = { Name := counter, Value := 0 }
    ∧ (ReadPerformanceCounterWithHandler ParseFloat (some svc) counter pollingAttempts
        pollingDelay).executed = [[command counter pollingAttempts pollingDelay]]
    ∧ ∀ ParseFloat2 : String → F × Option error,
        ReadPerformanceCounterWithHandler ParseFloat2 (some svc) counter pollingAttempts
            pollingDelay
          = ReadPerformanceCounterWithHandler ParseFloat (some svc) counter pollingAttempts
            pollingDelay := by
  simp [ReadPerformanceCounterWithHandler, hx]

/-- Witness of C13: an executor failing with "exit status 1" although it wrote 42.5. -/
theorem Read_execute_error_witness :
    (ReadPerformanceCounterWithHandler sampleParseFloat
        (some (fixedService "42.5" "boom" (some (errors.New "exit status 1")))) "cpu" 3 1).err
      = some (errors.New "exit status 1")
    ∧ (ReadPerformanceCounterWithHandler sampleParseFloat
        (some (fixedService "42.5" "boom" (some (errors.New "exit status 1")))) "cpu" 3
        1).counter = { Name := "cpu", Value := 0 } :=
  have h := Read_execute_error sampleParseFloat
    (fixedService "42.5" "boom" (some (errors.New "exit status 1"))) "cpu" 3 1 "42.5" "boom"
    (errors.New "exit status 1") rfl
  ⟨h.1, h.2.1⟩

/-- C14: when Execute returns a nil error and parsing the trimmed stdout fails,
ReadPerformanceCounterWithHandler returns the parse error, which is not nil, and a
reading whose value is 0. -/
theorem Read_parse_error {F : Type} [Zero F] (ParseFloat : String → F × Option error)
    (svc : powerShellService) (counter : String) (pollingAttempts pollingDelay : Int)
    (stdout stderr : String) (v : F) (perr : error)
    (hx : svc.Execute [command counter pollingAttempts pollingDelay] = (stdout, stderr, none))
    (hp : ParseFloat (TrimSpace stdout) = (v, some perr)) :
    (ReadPerformanceCounterWithHandler ParseFloat (some svc) counter pollingAttempts
        pollingDelay).err = some perr
    ∧ (ReadPerformanceCounterWithHandler ParseFloat (some svc) counter pollingAttempts
        pollingDelay).err ≠ none
    ∧ (ReadPerformanceCounterWithHandler ParseFloat (some svc) counter pollingAttempts
        pollingDelay).counter.Value = 0 := by
  simp [ReadPerformanceCounterWithHandler, hx, hp]

/-- Witness of C14: the stdout "not-a-number" and a stdout of white space only. -/
theorem Read_parse_error_witness :
    ((ReadPerformanceCounterWithHandler sampleParseFloat
        (some (fixedService "not-a-number" "" none)) "cpu" 3 1).err
      = some (errors.New "strconv.ParseFloat: parsing \"not-a-number\": invalid syntax")
      ∧ (ReadPerformanceCounterWithHandler sampleParseFloat
        (some (fixedService "not-a-number" "" none)) "cpu" 3 1).counter.Value = 0)
    ∧ ((ReadPerformanceCounterWithHandler sampleParseFloat
        (some (fixedService " \n" "" none)) "cpu" 3 1).err
      = some (errors.New "strconv.ParseFloat: parsing \"\": invalid syntax")
      ∧ (ReadPerformanceCounterWithHandler sampleParseFloat
        (some (fixedService " \n" "" none)) "cpu" 3 1).counter.Value = 0) :=
  have h1 := Read_parse_error sampleParseFloat (fixedService "not-a-number" "" none) "cpu" 3 1
    "not-a-number" "" 0
    (errors.New "strconv.ParseFloat: parsing \"not-a-number\": invalid syntax") rfl (by decide)
  have h2 := Read_parse_error sampleParseFloat (fixedService " \n" "" none) "cpu" 3 1
    " \n" "" 0 (errors.New "strconv.ParseFloat: parsing \"\": invalid syntax") rfl (by decide)
  ⟨⟨h1.1, h1.2.2⟩, ⟨h2.1, h2.2.2⟩⟩

set_option maxRecDepth 100000 in
/-- C15: for every counter name and all integers attempts and delay the executor receives
one argument list holding one string, the Get-Counter command with the counter name
verbatim, the delay after -SampleInterval and the attempts after -MaxSamples, both in
decimal; zero and negative values go through unchanged. The returned error and reading
are what the executor answers on exactly that argument list, and an executor that
answers with what it was given shows the one argument. -/
theorem Read_command {F : Type} [Zero F] (ParseFloat : String → F × Option error)
    (svc : powerShellService) (counter : String) (pollingAttempts pollingDelay : Int) :
    (ReadPerformanceCounterWithHandler ParseFloat (some svc) counter pollingAttempts
        pollingDelay).executed =
      [["Write-Output (Get-Counter -Counter \"" ++ counter ++ "\" -SampleInterval "
          ++ toString pollingDelay ++ " -MaxSamples " ++ toString pollingAttempts
          ++ " |\nSelect-Object -ExpandProperty CounterSamples |\nSelect-Object -ExpandProperty CookedValue |\nMeasure-Object -Average).Average"]]
    ∧ (ReadPerformanceCounterWithHandler ParseFloat (some svc) "\\Memory\\Available MBytes" 12
        (-3)).executed =
      [["Write-Output (Get-Counter -Counter \"\\Memory\\Available MBytes\" -SampleInterval -3 -MaxSamples 12 |\nSelect-Object -ExpandProperty CounterSamples |\nSelect-Object -ExpandProperty CookedValue |\nMeasure-Object -Average).Average"]]
    ∧ (ReadPerformanceCounterWithHandler ParseFloat (some svc) "" 0 0).executed =
      [["Write-Output (Get-Counter -Counter \"\" -SampleInterval 0 -MaxSamples 0 |\nSelect-Object -ExpandProperty CounterSamples |\nSelect-Object -ExpandProperty CookedValue |\nMeasure-Object -Average).Average"]]
    ∧ (ReadPerformanceCounterWithHandler ParseFloat (some svc) counter pollingAttempts
        pollingDelay).err =
      (match (svc.Execute
          ["Write-Output (Get-Counter -Counter \"" ++ counter ++ "\" -SampleInterval "
            ++ toString pollingDelay ++ " -MaxSamples " ++ toString pollingAttempts
            ++ " |\nSelect-Object -ExpandProperty CounterSamples |\nSelect-Object -ExpandProperty CookedValue |\nMeasure-Object -Average).Average"]) with
        | (_, _, some e) => some e
        | (stdout, _, none) => (ParseFloat (TrimSpace stdout)).2)
    ∧ (ReadPerformanceCounterWithHandler ParseFloat (some svc) counter pollingAttempts
        pollingDelay).counter =
      (match (svc.Execute
          ["Write-Output (Get-Counter -Counter \"" ++ counter ++ "\" -SampleInterval "
            ++ toString pollingDelay ++ " -MaxSamples " ++ toString pollingAttempts
            ++ " |\nSelect-Object -ExpandProperty CounterSamples |\nSelect-Object -ExpandProperty CookedValue |\nMeasure-Object -Average).Average"]) with
        | (_, _, some _) => { Name := counter, Value := 0 }
        | (stdout, _, none) =>
          match ParseFloat (TrimSpace stdout) with
          | (_, some _) => { Name := counter, Value := 0 }
          | (v, none) => { Name := counter, Value := v })
    ∧ (ReadPerformanceCounterWithHandler ParseFloat (some echoService)
        "\\Memory\\Available MBytes" 12 (-3)).err =
      some (errors.New "1 argument: Write-Output (Get-Counter -Counter \"\\Memory\\Available MBytes\" -SampleInterval -3 -MaxSamples 12 |\nSelect-Object -ExpandProperty CounterSamples |\nSelect-Object -ExpandProperty CookedValue |\nMeasure-Object -Average).Average")
    ∧ (ReadPerformanceCounterWithHandler ParseFloat (some echoService) "" 0 0).err =
      some (errors.New "1 argument: Write-Output (Get-Counter -Counter \"\" -SampleInterval 0 -MaxSamples 0 |\nSelect-Object -ExpandProperty CounterSamples |\nSelect-Object -ExpandProperty CookedValue |\nMeasure-Object -Average).Average") := by
  have h : ∀ (c : String) (a d : Int),
      (ReadPerformanceCounterWithHandler ParseFloat (some svc) c a d).executed
        = [[command c a d]] := by
    intro c a d
    unfold ReadPerformanceCounterWithHandler
    rcases hx : svc.Execute [command c a d] with ⟨out, errOut, _ | e⟩
    · rcases hp : ParseFloat (TrimSpace out) with ⟨v, _ | pe⟩ <;> simp [hx, hp]
    · simp [hx]
  have hcmd : "Write-Output (Get-Counter -Counter \"" ++ counter ++ "\" -SampleInterval "
      ++ toString pollingDelay ++ " -MaxSamples " ++ toString pollingAttempts
      ++ " |\nSelect-Object -ExpandProperty CounterSamples |\nSelect-Object -ExpandProperty CookedValue |\nMeasure-Object -Average).Average"
      = command counter pollingAttempts pollingDelay := by
    simp [command, String.append_assoc]
  have hecho : ∀ (c : String) (a d : Int),
      (ReadPerformanceCounterWithHandler ParseFloat (some echoService) c a d).err
        = some (errors.New ("1 argument: " ++ command c a d)) := by
    intro c a d
    have h1 : toString (1 : Nat) ++ " argument: " = "1 argument: " := by decide
    simp [ReadPerformanceCounterWithHandler, echoService, String.intercalate,
      String.intercalate.go, h1]
  refine ⟨?_, ?_, ?_, ?_, ?_, ?_, ?_⟩
  · rw [h, hcmd]
  · rw [h]
    decide
  · rw [h]
    decide
  · rw [hcmd]
    unfold ReadPerformanceCounterWithHandler
    rcases hx : svc.Execute [command counter pollingAttempts pollingDelay] with
      ⟨out, errOut, _ | e⟩
    · rcases hp : ParseFloat (TrimSpace out) with ⟨v, _ | pe⟩ <;> simp [hx, hp]
    · simp [hx]
  · rw [hcmd]
    unfold ReadPerformanceCounterWithHandler
    rcases hx : svc.Execute [command counter pollingAttempts pollingDelay] with
      ⟨out, errOut, _ | e⟩
    · rcases hp : ParseFloat (TrimSpace out) with ⟨v, _ | pe⟩ <;> simp [hx, hp]
    · simp [hx]
  · rw [hecho]
    decide
  · rw [hecho]
    decide

/-- C16: powerShell.Execute calls its command function once, with the stored shell path
and the argument list made of -NoProfile, -NonInteractive and then the caller's
arguments in their order, and returns what running that command gives; the stored path
is the one lookPath found for powershell.exe. -/
theorem Execute_arguments (p : perfcounters.powerShell) (args : List String)
    (lookPath : String → String × Option error) (cmd : String → List String → Cmd) :
    (p.Execute args).invoked = [(p.powerShell, ["-NoProfile", "-NonInteractive"] ++ args)]
    ∧ ((p.Execute args).stdOut, (p.Execute args).stdErr, (p.Execute args).err)
        = (p.command p.powerShell ("-NoProfile" :: "-NonInteractive" :: args)).Run
    ∧ ((newPowerShell lookPath cmd).Execute args).invoked
        = [((lookPath "powershell.exe").1, "-NoProfile" :: "-NonInteractive" :: args)] := by
  refine ⟨rfl, rfl, rfl⟩

/-- C19: with a non-nil executor the reading always carries the counter name, and its
value is 0 unless Execute and the parse both succeeded, in which case it is the parsed
value; the nil executor gives the empty name whatever the counter is, and a non-nil one
gives an empty name only for an empty counter. -/
theorem Read_name_and_value {F : Type} [Zero F] (ParseFloat : String → F × Option error)
    (svc : powerShellService) (counter : String) (pollingAttempts pollingDelay : Int) :
    (ReadPerformanceCounterWithHandler ParseFloat (some svc) counter pollingAttempts
        pollingDelay).counter.Name = counter
    ∧ (¬ ((svc.Execute [command counter pollingAttempts pollingDelay]).2.2 = none
          ∧ (ParseFloat (TrimSpace
              (svc.Execute [command counter pollingAttempts pollingDelay]).1)).2 = none) →
        (ReadPerformanceCounterWithHandler ParseFloat (some svc) counter pollingAttempts
          pollingDelay).counter.Value = 0)
    ∧ (((svc.Execute [command counter pollingAttempts pollingDelay]).2.2 = none
          ∧ (ParseFloat (TrimSpace
              (svc.Execute [command counter pollingAttempts pollingDelay]).1)).2 = none) →
        (ReadPerformanceCounterWithHandler ParseFloat (some svc) counter pollingAttempts
          pollingDelay).counter.Value
          = (ParseFloat (TrimSpace
              (svc.Execute [command counter pollingAttempts pollingDelay]).1)).1)
    ∧ (ReadPerformanceCounterWithHandler ParseFloat none counter pollingAttempts
        pollingDelay).counter.Name = ""
    ∧ ((ReadPerformanceCounterWithHandler ParseFloat (some svc) counter pollingAttempts
        pollingDelay).counter.Name = "" → counter = "") := by
  unfold ReadPerformanceCounterWithHandler
  rcases hx : svc.Execute [command counter pollingAttempts pollingDelay] with ⟨out, errOut, _ | e⟩
  · rcases hp : ParseFloat (TrimSpace out) with ⟨v, _ | pe⟩ <;> simp [hx, hp]
  · simp [hx]

end perfcounters

end nagiosfoundation
